import Mathlib

/-!
# INTENT badge-evaluation service: a shallow embedding

This file embeds the badge-evaluation edge function of the INTENT platform
(`supabase/functions/generate-image/index.ts`, second document: the
"Badge Evaluation Service") and proves the frozen claims about it.

Modelling conventions:
* JavaScript numbers that are used as counters (`total_transactions`,
  `consecutive_days`, ...) are modelled as `Nat`; the defensive `|| 0`
  defaults in the handler are identities on `Nat` and are noted where they
  occur.
* Calendar-date strings (`"YYYY-MM-DD"`) are modelled as `Int` day indices:
  `new Date()` / `toISOString().split('T')[0]` yields `today`, and the
  `setDate(getDate() - 1)` computation yields `today - 1`.  Timestamps
  compared in the event-window check are likewise `Int`.
* Nullable / optional fields are `Option _`.  JavaScript truthiness on an
  optional numeric criterion (`if (criteria.min_transactions && ...)`) is
  modelled explicitly: the guard fires only when the key is present AND
  its value is nonzero (`natCriterionBlocks`); for an optional boolean the
  guard fires only when the key is present with value `true`.
* The intent score is computed with JavaScript `/`, `Math.min`; we model
  the arithmetic in `ℚ` (the operands are small integer counters divided
  by small constants, far inside the range where binary64 arithmetic is
  exact for the order relations proved here).
* Database writes are modelled by returning the updated row; the
  best-effort unlock-insertion loop takes the success or failure of each
  insert as an oracle `insertOk : Badge → Bool`, and the `console.log`
  calls made inside the loop are collected in a list so that the logging
  behaviour is observable.
-/

/-- The `BadgeCriteria` interface of the service: a sparse record of
optional criterion keys (only some of which the engine evaluates). -/
structure BadgeCriteria where
  min_transactions : Option Nat := none
  min_consecutive_days : Option Nat := none
  min_protocols : Option Nat := none
  verified_on_chain : Option Bool := none
  first_24h_launch : Option Bool := none
  mainnet_first_24h : Option Bool := none
  protocol : Option String := none
  within_days : Option Nat := none
  state_1 : Option Nat := none
  state_2 : Option Nat := none
  state_3 : Option (Nat × Nat) := none
deriving Repr, DecidableEq

/-- The `Badge` interface: catalog entry with criteria, progression data
and an optional event window (timestamps as `Int`). -/
structure Badge where
  id : String
  slug : String
  name : String
  layer : String
  rarity : String
  criteria : BadgeCriteria
  is_progression : Bool
  progression_order : Option Int := none
  event_window_start : Option Int := none
  event_window_end : Option Int := none
deriving Repr, DecidableEq

/-- The `UserProgress` interface: the per-user mutable aggregate row. -/
structure UserProgress where
  user_id : String
  wallet_address : String
  total_transactions : Nat := 0
  unique_protocols : Nat := 0
  protocols_interacted : List String := []
  consecutive_days : Nat := 0
  last_active_date : Option Int := none
  max_consecutive_days : Nat := 0
  social_shares : Nat := 0
  total_engagement : Nat := 0
  voice_state : Nat := 0
  intent_score : ℚ := 0
  current_identity_badge : Option String := none
deriving Repr, DecidableEq

/-- `calculateIntentScore`: sum of five individually capped contributions,
then the total capped at 10.  Mirrors the `score += Math.min(...)`
sequence of the source. -/
def calculateIntentScore (progress : UserProgress) : ℚ :=
  let score : ℚ := 0
  let score := score + min ((progress.total_transactions : ℚ) / 50) 2
  let score := score + min ((progress.unique_protocols : ℚ) / 5) 2
  let score := score + min ((progress.consecutive_days : ℚ) / 10) 3
  let score := score + min ((progress.max_consecutive_days : ℚ) / 15) 2
  let score := score + min ((progress.social_shares : ℚ) / 10) 1
  min score 10

/-- Truthiness of a numeric criterion guard:
`if (criteria.k && progress.v < criteria.k) return false` blocks exactly
when the key is present, nonzero (JavaScript truthiness), and the
progress value is below it. -/
def natCriterionBlocks (o : Option Nat) (value : Nat) : Bool :=
  match o with
  | none => false
  | some t => decide (t ≠ 0) && decide (value < t)

/-- `checkBadgeCriteria`: the early-return chain of the source, with the
current time `now` passed explicitly in place of `new Date()`. -/
def checkBadgeCriteria (badge : Badge) (progress : UserProgress) (now : Int) : Bool :=
  let criteria := badge.criteria
  if natCriterionBlocks criteria.min_transactions progress.total_transactions then false
  else if natCriterionBlocks criteria.min_consecutive_days progress.consecutive_days then false
  else if natCriterionBlocks criteria.min_protocols progress.unique_protocols then false
  else if criteria.verified_on_chain.getD false && decide (progress.total_transactions < 1) then false
  else
    match badge.event_window_start, badge.event_window_end with
    | some s, some e => if now < s ∨ now > e then false else true
    | _, _ => true

/-- The event-window test in isolation: true when no window is present,
otherwise true exactly when `now` lies inside `[start, end]`. -/
def windowOk (badge : Badge) (now : Int) : Bool :=
  match badge.event_window_start, badge.event_window_end with
  | some s, some e => if now < s ∨ now > e then false else true
  | _, _ => true

/-- `getVoiceState`: the 0-3 tier from share and engagement totals. -/
def getVoiceState (progress : UserProgress) : Nat :=
  if progress.social_shares ≥ 10 ∧ progress.total_engagement ≥ 100 then 3
  else if progress.social_shares ≥ 5 then 2
  else if progress.social_shares ≥ 1 then 1
  else 0

/-- The `case 'transaction'` branch of the handler: protocol-set update,
streak recomputation against `today` (with yesterday = `today - 1`),
high-water-mark update, transaction count increment, and
`last_active_date := today`.  The `|| 0` defaults of the source are
identities on `Nat` fields.  The returned row is the persisted update
(identical to the in-memory refresh the handler performs). -/
def applyTransaction (protocol : Option String) (today : Int)
    (progress : UserProgress) : UserProgress :=
  let protocols :=
    match protocol with
    | some pr =>
        if pr ≠ "" ∧ pr ∉ progress.protocols_interacted then
          progress.protocols_interacted ++ [pr]
        else progress.protocols_interacted
    | none => progress.protocols_interacted
  let yesterday : Int := today - 1
  let consecutiveDays :=
    if progress.last_active_date = some today then progress.consecutive_days
    else if progress.last_active_date = some yesterday then progress.consecutive_days + 1
    else 1
  let maxConsecutive := max progress.max_consecutive_days consecutiveDays
  { progress with
    total_transactions := progress.total_transactions + 1
    unique_protocols := protocols.length
    protocols_interacted := protocols
    consecutive_days := consecutiveDays
    last_active_date := some today
    max_consecutive_days := maxConsecutive }

/-- The `case 'social_share'` branch of the handler: increment the share
count, add the engagement delta (`engagement || 0`), and recompute
`voice_state` from the updated totals.  This is the persisted row (the
in-memory refresh omits `voice_state`, which no later step of the request
reads). -/
def applySocialShare (engagement : Option Nat)
    (progress : UserProgress) : UserProgress :=
  let shares := progress.social_shares + 1
  let eng := progress.total_engagement + engagement.getD 0
  { progress with
    social_shares := shares
    total_engagement := eng
    voice_state := getVoiceState { progress with
      social_shares := shares
      total_engagement := eng } }

/-- One incoming request's event payload: the switch on `action` handles
`transaction` and `social_share`; any other action falls through the
switch and leaves progress unchanged. -/
inductive BadgeEvent where
  | transaction (protocol : Option String) (today : Int)
  | socialShare (engagement : Option Nat)
  | otherAction
deriving Repr, DecidableEq

/-- The progress mutation performed by the handler's switch for one
event. -/
def applyEvent (e : BadgeEvent) (progress : UserProgress) : UserProgress :=
  match e with
  | .transaction protocol today => applyTransaction protocol today progress
  | .socialShare engagement => applySocialShare engagement progress
  | .otherAction => progress

/-- The per-badge unlock loop of the handler.  `unlockedIds` is the
pre-loop snapshot of the user's unlock set (badge ids); `insertOk`
records, for each badge, whether the `badge_unlocks` insert would
succeed.  Returns the `newUnlocks` slug list together with the list of
`console.log` messages emitted inside the loop (one per successful
unlock; the source has no log statement for a failed insert). -/
def runUnlockLoop (progress : UserProgress) (now : Int)
    (unlockedIds : List String) (insertOk : Badge → Bool) :
    List Badge → List String × List String
  | [] => ([], [])
  | badge :: rest =>
    if unlockedIds.contains badge.id then
      runUnlockLoop progress now unlockedIds insertOk rest
    else if checkBadgeCriteria badge progress now then
      if insertOk badge then
        let r := runUnlockLoop progress now unlockedIds insertOk rest
        (badge.slug :: r.1, badge.name :: r.2)
      else
        runUnlockLoop progress now unlockedIds insertOk rest
    else
      runUnlockLoop progress now unlockedIds insertOk rest

/-- The sort key used for identity badges: `progression_order || 0`. -/
def orderKey (badge : Badge) : Int :=
  badge.progression_order.getD 0

/-- The filter of the identity-badge recomputation:
`b.layer === 'identity' && b.is_progression`. -/
def isIdentityProgression (badge : Badge) : Bool :=
  badge.layer == "identity" && badge.is_progression

/-- Descending comparison on the sort key:
`.sort((a, b) => (b.progression_order || 0) - (a.progression_order || 0))`. -/
def badgeGE (a b : Badge) : Prop :=
  orderKey b ≤ orderKey a

instance : DecidableRel badgeGE := fun a b => Int.decLe (orderKey b) (orderKey a)

instance : IsTotal Badge badgeGE :=
  ⟨fun a b => le_total (orderKey b) (orderKey a)⟩

instance : IsTrans Badge badgeGE :=
  ⟨fun _ _ _ h h' => le_trans h' h⟩

/-- The sorted candidate list `identityBadges` of the handler. -/
def identityCandidates (badges : List Badge) : List Badge :=
  List.insertionSort badgeGE (badges.filter isIdentityProgression)

/-- Membership of a badge in the union of the pre-existing unlock set
(by id) and the badges newly unlocked this call (by slug), exactly the
test `unlockedBadgeIds.has(badge.id) || newUnlocks.includes(badge.slug)`. -/
def inUnlockUnion (unlockedIds newUnlocks : List String) (badge : Badge) : Bool :=
  unlockedIds.contains badge.id || newUnlocks.contains badge.slug

/-- The `currentIdentityBadge` recomputation: first badge of the
descending-sorted identity progression list that is in the unlock union,
or `none`. -/
def computeCurrentIdentityBadge (badges : List Badge)
    (unlockedIds newUnlocks : List String) : Option String :=
  ((identityCandidates badges).find? (inUnlockUnion unlockedIds newUnlocks)).map
    Badge.slug

/-- Rewriting of a criteria record that drops the degenerate values the
JavaScript truthiness tests skip: a numeric minimum present with value 0,
and `verified_on_chain` present with value `false`. -/
def scrubDegenerateCriteria (c : BadgeCriteria) : BadgeCriteria :=
  { c with
    min_transactions := if c.min_transactions = some 0 then none else c.min_transactions
    min_consecutive_days :=
      if c.min_consecutive_days = some 0 then none else c.min_consecutive_days
    min_protocols := if c.min_protocols = some 0 then none else c.min_protocols
    verified_on_chain :=
      if c.verified_on_chain = some false then none else c.verified_on_chain }

/-! ### Concrete fixtures used by witnesses and counterexamples -/

/-- A fresh progress row, as created on a user's first event. -/
def freshProgress : UserProgress :=
  { user_id := "user-1", wallet_address := "0xabc" }

/-- A progress row with every counter high. -/
def richProgress : UserProgress :=
  { user_id := "user-1", wallet_address := "0xabc"
    total_transactions := 100, unique_protocols := 10
    protocols_interacted := ["p1"], consecutive_days := 30
    last_active_date := some 9, max_consecutive_days := 30
    social_shares := 20, total_engagement := 200 }

/-- A progress row whose last activity was day 9 with a 3-day streak. -/
def streakProgress : UserProgress :=
  { user_id := "user-1", wallet_address := "0xabc"
    total_transactions := 7, consecutive_days := 3
    last_active_date := some 9, max_consecutive_days := 3 }

/-- A progress row with 4 shares and 60 engagement. -/
def fourShareProgress : UserProgress :=
  { user_id := "user-1", wallet_address := "0xabc"
    social_shares := 4, total_engagement := 60 }

/-- A badge whose criteria hold only unimplemented keys and which has no
event window. -/
def onlyUnimplBadge : Badge :=
  { id := "badge-launch-id", slug := "launch-hero", name := "Launch Hero"
    layer := "event", rarity := "rare"
    criteria := { first_24h_launch := some true, state_3 := some (10, 100) }
    is_progression := false }

/-- A badge whose event window is entirely in the past (days 0 to 10). -/
def pastWindowBadge : Badge :=
  { id := "badge-past-id", slug := "past-event", name := "Past Event"
    layer := "event", rarity := "epic", criteria := {}
    is_progression := false
    event_window_start := some 0, event_window_end := some 10 }

/-- Identity progression badge, tier 1. -/
def tierOneBadge : Badge :=
  { id := "badge-t1-id", slug := "newcomer", name := "Newcomer"
    layer := "identity", rarity := "common"
    criteria := { min_transactions := some 1 }
    is_progression := true, progression_order := some 1 }

/-- Identity progression badge, tier 2. -/
def tierTwoBadge : Badge :=
  { id := "badge-t2-id", slug := "explorer", name := "Explorer"
    layer := "identity", rarity := "uncommon"
    criteria := { min_transactions := some 10 }
    is_progression := true, progression_order := some 2 }

/-- Identity progression badge, tier 3. -/
def tierThreeBadge : Badge :=
  { id := "badge-t3-id", slug := "veteran", name := "Veteran"
    layer := "identity", rarity := "rare"
    criteria := { min_transactions := some 50 }
    is_progression := true, progression_order := some 3 }

/-- A small demo catalog: three identity tiers plus a non-identity badge. -/
def demoCatalog : List Badge :=
  [tierOneBadge, pastWindowBadge, tierThreeBadge, tierTwoBadge]

/-- Two always-satisfiable badges used to exercise the unlock loop. -/
def firstLoopBadge : Badge :=
  { id := "badge-l1-id", slug := "first-badge", name := "First Badge"
    layer := "proof", rarity := "common", criteria := {}
    is_progression := false }

def secondLoopBadge : Badge :=
  { id := "badge-l2-id", slug := "second-badge", name := "Second Badge"
    layer := "proof", rarity := "common", criteria := {}
    is_progression := false }

/-- Insertion oracle under which only `secondLoopBadge`'s insert succeeds. -/
def onlySecondInsertOk : Badge → Bool :=
  fun b => b.slug == "second-badge"

/-! ### Helper lemmas -/

/-- The accumulated score, with the initial `0 +` removed. -/
theorem calculateIntentScore_eq (p : UserProgress) :
    calculateIntentScore p =
      min (min ((p.total_transactions : ℚ) / 50) 2
        + min ((p.unique_protocols : ℚ) / 5) 2
        + min ((p.consecutive_days : ℚ) / 10) 3
        + min ((p.max_consecutive_days : ℚ) / 15) 2
        + min ((p.social_shares : ℚ) / 10) 1) 10 := by
  simp [calculateIntentScore]

/-- `consecutive_days` after a transaction event, as an if-chain. -/
theorem applyTransaction_consecutive_days (protocol : Option String)
    (today : Int) (p : UserProgress) :
    (applyTransaction protocol today p).consecutive_days =
      if p.last_active_date = some today then p.consecutive_days
      else if p.last_active_date = some (today - 1) then p.consecutive_days + 1
      else 1 := rfl

/-- `max_consecutive_days` after a transaction event. -/
theorem applyTransaction_max_consecutive_days (protocol : Option String)
    (today : Int) (p : UserProgress) :
    (applyTransaction protocol today p).max_consecutive_days =
      max p.max_consecutive_days (applyTransaction protocol today p).consecutive_days :=
  rfl

/-- A single event never decreases the streak high-water mark. -/
theorem applyEvent_max_mono (e : BadgeEvent) (p : UserProgress) :
    p.max_consecutive_days ≤ (applyEvent e p).max_consecutive_days := by
  cases e with
  | transaction protocol today =>
      rw [applyEvent, applyTransaction_max_consecutive_days]
      exact le_max_left _ _
  | socialShare engagement => exact le_refl _
  | otherAction => exact le_refl _

/-! ### Claim theorems -/

/-- C4: for every progress state, `calculateIntentScore` returns a value
in `[0, 10]`, equal to the sum of the five individually capped
contributions (transactions/50 capped at 2, protocols/5 capped at 2,
consecutive days/10 capped at 3, max consecutive days/15 capped at 2,
shares/10 capped at 1) with the total then capped at 10; it is defined
for every input with no error condition. -/
theorem intentScore_bounded (p : UserProgress) :
    0 ≤ calculateIntentScore p ∧ calculateIntentScore p ≤ 10 ∧
    calculateIntentScore p =
      min (min ((p.total_transactions : ℚ) / 50) 2
        + min ((p.unique_protocols : ℚ) / 5) 2
        + min ((p.consecutive_days : ℚ) / 10) 3
        + min ((p.max_consecutive_days : ℚ) / 15) 2
        + min ((p.social_shares : ℚ) / 10) 1) 10 := by
  refine ⟨?_, ?_, calculateIntentScore_eq p⟩
  · rw [calculateIntentScore_eq]
    refine le_min ?_ (by norm_num)
    have h1 : (0 : ℚ) ≤ min ((p.total_transactions : ℚ) / 50) 2 :=
      le_min (by positivity) (by norm_num)
    have h2 : (0 : ℚ) ≤ min ((p.unique_protocols : ℚ) / 5) 2 :=
      le_min (by positivity) (by norm_num)
    have h3 : (0 : ℚ) ≤ min ((p.consecutive_days : ℚ) / 10) 3 :=
      le_min (by positivity) (by norm_num)
    have h4 : (0 : ℚ) ≤ min ((p.max_consecutive_days : ℚ) / 15) 2 :=
      le_min (by positivity) (by norm_num)
    have h5 : (0 : ℚ) ≤ min ((p.social_shares : ℚ) / 10) 1 :=
      le_min (by positivity) (by norm_num)
    linarith
  · rw [calculateIntentScore_eq]
    exact min_le_right _ _

/-- C5: `calculateIntentScore` is monotone non-decreasing in each
counter: if every counter of `q` is at least the corresponding counter
of `p` (in particular when they agree on all counters except one), then
`q`'s score is at least `p`'s. -/
theorem intentScore_monotone (p q : UserProgress)
    (htx : p.total_transactions ≤ q.total_transactions)
    (hup : p.unique_protocols ≤ q.unique_protocols)
    (hcd : p.consecutive_days ≤ q.consecutive_days)
    (hmcd : p.max_consecutive_days ≤ q.max_consecutive_days)
    (hss : p.social_shares ≤ q.social_shares) :
    calculateIntentScore p ≤ calculateIntentScore q := by
  rw [calculateIntentScore_eq, calculateIntentScore_eq]
  have cast5 : ((p.social_shares : ℚ)) ≤ (q.social_shares : ℚ) := by exact_mod_cast hss
  have cast1 : ((p.total_transactions : ℚ)) ≤ (q.total_transactions : ℚ) := by
    exact_mod_cast htx
  have cast2 : ((p.unique_protocols : ℚ)) ≤ (q.unique_protocols : ℚ) := by
    exact_mod_cast hup
  have cast3 : ((p.consecutive_days : ℚ)) ≤ (q.consecutive_days : ℚ) := by
    exact_mod_cast hcd
  have cast4 : ((p.max_consecutive_days : ℚ)) ≤ (q.max_consecutive_days : ℚ) := by
    exact_mod_cast hmcd
  gcongr

/-- Witness for C5 at concrete inputs: raising only the transaction
count does not lower the score. -/
theorem intentScore_monotone_witness :
    calculateIntentScore freshProgress ≤ calculateIntentScore richProgress :=
  intentScore_monotone freshProgress richProgress (by decide) (by decide)
    (by decide) (by decide) (by decide)

/-- C2: a transaction event leaves `consecutiveDays` unchanged when
`lastActiveDate` is today, increments it by 1 when `lastActiveDate` is
yesterday, and resets it to 1 in every other case (including an absent
`lastActiveDate`); it then sets `lastActiveDate` to today and increments
`totalTransactions` by 1. -/
theorem transaction_streak_rule (protocol : Option String) (today : Int)
    (p : UserProgress) :
    (applyTransaction protocol today p).total_transactions
        = p.total_transactions + 1 ∧
    (applyTransaction protocol today p).last_active_date = some today ∧
    (p.last_active_date = some today →
      (applyTransaction protocol today p).consecutive_days
        = p.consecutive_days) ∧
    (p.last_active_date = some (today - 1) →
      (applyTransaction protocol today p).consecutive_days
        = p.consecutive_days + 1) ∧
    (p.last_active_date ≠ some today → p.last_active_date ≠ some (today - 1) →
      (applyTransaction protocol today p).consecutive_days = 1) := by
  refine ⟨rfl, rfl, ?_, ?_, ?_⟩
  · intro h
    rw [applyTransaction_consecutive_days, if_pos h]
  · intro h
    rw [applyTransaction_consecutive_days, if_neg ?_, if_pos h]
    rw [h]
    simp only [Option.some.injEq]
    omega
  · intro h1 h2
    rw [applyTransaction_consecutive_days, if_neg h1, if_neg h2]

/-- Witness for C2 at concrete inputs: a transaction on day 10 for a
user last active on day 9 with a 3-day streak extends it to 4, stamps
day 10, and bumps the transaction count. -/
theorem transaction_streak_rule_witness :
    (applyTransaction none 10 streakProgress).total_transactions
        = streakProgress.total_transactions + 1 ∧
    (applyTransaction none 10 streakProgress).last_active_date = some 10 ∧
    (applyTransaction none 10 streakProgress).consecutive_days
        = streakProgress.consecutive_days + 1 :=
  ⟨(transaction_streak_rule none 10 streakProgress).1,
   (transaction_streak_rule none 10 streakProgress).2.1,
   (transaction_streak_rule none 10 streakProgress).2.2.2.1 (by decide)⟩

/-- C7: `max_consecutive_days` is monotonically non-decreasing across
any sequence of events, whatever their kinds and payloads. -/
theorem maxConsecutiveDays_monotone (events : List BadgeEvent) (p : UserProgress) :
    p.max_consecutive_days
      ≤ (events.foldl (fun s e => applyEvent e s) p).max_consecutive_days := by
  induction events generalizing p with
  | nil => exact le_refl _
  | cons e rest ih =>
      exact le_trans (applyEvent_max_mono e p) (ih (applyEvent e p))

/-- C8: a social-share event increments `socialShares` by 1, adds the
event's engagement delta to `totalEngagement`, and recomputes
`voiceState` from the updated totals (3 if shares ≥ 10 and engagement
≥ 100; else 2 if shares ≥ 5; else 1 if shares ≥ 1; else 0); in
particular 4 prior shares and 60 prior engagement plus a share with
engagement 50 yields shares 5, engagement 110, and voice state 2. -/
theorem socialShare_updates (engagement : Option Nat) (p : UserProgress) :
    (applySocialShare engagement p).social_shares = p.social_shares + 1 ∧
    (applySocialShare engagement p).total_engagement
        = p.total_engagement + engagement.getD 0 ∧
    (applySocialShare engagement p).voice_state =
      (if p.social_shares + 1 ≥ 10 ∧ p.total_engagement + engagement.getD 0 ≥ 100
        then 3
       else if p.social_shares + 1 ≥ 5 then 2
       else if p.social_shares + 1 ≥ 1 then 1
       else 0) ∧
    (p.social_shares = 4 → p.total_engagement = 60 → engagement = some 50 →
      (applySocialShare engagement p).social_shares = 5 ∧
      (applySocialShare engagement p).total_engagement = 110 ∧
      (applySocialShare engagement p).voice_state = 2) := by
  refine ⟨rfl, rfl, rfl, ?_⟩
  intro h1 h2 h3
  refine ⟨?_, ?_, ?_⟩
  · show p.social_shares + 1 = 5
    omega
  · show p.total_engagement + engagement.getD 0 = 110
    rw [h3]
    simp only [Option.getD_some]
    omega
  · show getVoiceState _ = 2
    rw [getVoiceState]
    simp only [h1, h2, h3]
    norm_num [getVoiceState]

/-- Witness for C8 at the claim's concrete scenario. -/
theorem socialShare_updates_witness :
    (applySocialShare (some 50) fourShareProgress).social_shares = 5 ∧
    (applySocialShare (some 50) fourShareProgress).total_engagement = 110 ∧
    (applySocialShare (some 50) fourShareProgress).voice_state = 2 :=
  (socialShare_updates (some 50) fourShareProgress).2.2.2 rfl rfl rfl

/-- C1: for a badge whose criteria carry none of `min_transactions`,
`min_consecutive_days`, `min_protocols`, `verified_on_chain` (e.g. only
the unimplemented keys `first_24h_launch`, `mainnet_first_24h`,
`protocol`/`within_days`, `state_1/2/3`), `checkBadgeCriteria` reduces
to the event-window check alone for every progress state: such a badge
unlocks unconditionally whenever the window check, if a window is
present, passes. -/
theorem unimplemented_keys_reduce_to_window (badge : Badge) (p : UserProgress)
    (now : Int)
    (h1 : badge.criteria.min_transactions = none)
    (h2 : badge.criteria.min_consecutive_days = none)
    (h3 : badge.criteria.min_protocols = none)
    (h4 : badge.criteria.verified_on_chain = none) :
    checkBadgeCriteria badge p now = windowOk badge now := by
  simp [checkBadgeCriteria, windowOk, natCriterionBlocks, h1, h2, h3, h4]

/-- Witness for C1: a badge whose criteria hold only unimplemented keys
and has no window unlocks on a fresh, all-zero progress row. -/
theorem unimplemented_keys_reduce_to_window_witness :
    checkBadgeCriteria onlyUnimplBadge freshProgress 0 = true :=
  (unimplemented_keys_reduce_to_window onlyUnimplBadge freshProgress 0
    rfl rfl rfl rfl).trans rfl

/-- C3: whenever a badge carries an event window and the current time
lies outside `[eventWindowStart, eventWindowEnd]`, `checkBadgeCriteria`
returns false for every progress state, regardless of the other
criteria; in particular a badge whose window lies entirely in the past
never unlocks. -/
theorem window_outside_blocks (badge : Badge) (p : UserProgress)
    (now s e : Int)
    (hs : badge.event_window_start = some s)
    (he : badge.event_window_end = some e)
    (hout : now < s ∨ now > e) :
    checkBadgeCriteria badge p now = false := by
  simp [checkBadgeCriteria, hs, he, hout]

/-- Witness for C3: the past-window badge (window days 0 to 10) stays
locked on day 20 even for a progress row with every counter high. -/
theorem window_outside_blocks_witness :
    checkBadgeCriteria pastWindowBadge richProgress 20 = false :=
  window_outside_blocks pastWindowBadge richProgress 20 0 10 rfl rfl
    (by decide)

/-- `natCriterionBlocks` cannot fire on a key present with value 0, just
as on an absent key. -/
theorem natCriterionBlocks_scrub (o : Option Nat) (v : Nat) :
    natCriterionBlocks (if o = some 0 then none else o) v
      = natCriterionBlocks o v := by
  rcases o with _ | t
  · simp
  · by_cases h : t = 0 <;> simp [natCriterionBlocks, h]

/-- `verified_on_chain` present with value `false` defaults like an
absent key. -/
theorem verified_scrub (o : Option Bool) :
    (if o = some false then none else o).getD false = o.getD false := by
  rcases o with _ | b
  · simp
  · cases b <;> simp

/-- C10: a criterion key present with value 0 (`min_transactions`,
`min_consecutive_days`, `min_protocols`) or with value `false`
(`verified_on_chain`) imposes no constraint: `checkBadgeCriteria`
treats the badge exactly as if those keys were absent, for every
progress state and time — so such a key never fails the criteria, even
when the corresponding counter is 0. -/
theorem degenerate_criteria_no_constraint (badge : Badge) (p : UserProgress)
    (now : Int) :
    checkBadgeCriteria { badge with criteria := scrubDegenerateCriteria badge.criteria } p now
      = checkBadgeCriteria badge p now := by
  simp only [checkBadgeCriteria, scrubDegenerateCriteria,
    natCriterionBlocks_scrub, verified_scrub]

/-- C9 (amended): the unlock loop is best-effort — a failed insert does
not abort evaluation of the remaining badges and is not reported: the
returned `newUnlocks` are exactly the slugs of the badges that pass the
criteria, were not already unlocked, and whose insert succeeded, in
catalog order.  However a failed insert is NOT logged: the loop's log
output contains exactly one entry per successful unlock and nothing for
a failure. -/
theorem unlockLoop_best_effort (p : UserProgress) (now : Int)
    (unlockedIds : List String) (insertOk : Badge → Bool)
    (badges : List Badge) :
    (runUnlockLoop p now unlockedIds insertOk badges).1
      = (badges.filter fun b =>
          !unlockedIds.contains b.id && checkBadgeCriteria b p now
            && insertOk b).map Badge.slug ∧
    (runUnlockLoop p now unlockedIds insertOk badges).2
      = (badges.filter fun b =>
          !unlockedIds.contains b.id && checkBadgeCriteria b p now
            && insertOk b).map Badge.name := by
  induction badges with
  | nil => exact ⟨rfl, rfl⟩
  | cons b rest ih =>
      by_cases h1 : b.id ∈ unlockedIds
      · simp [runUnlockLoop, List.filter_cons, h1, ih.1, ih.2]
      · by_cases h2 : checkBadgeCriteria b p now = true
        · by_cases h3 : insertOk b = true
          · simp [runUnlockLoop, List.filter_cons, h1, h2, h3, ih.1, ih.2]
          · simp [runUnlockLoop, List.filter_cons, h1, h2, h3, ih.1, ih.2]
        · simp [runUnlockLoop, List.filter_cons, h1, h2, ih.1, ih.2]

/-- Counterexample to C9 as stated: with two trivially satisfiable
badges where only the second one's insert succeeds, the first badge's
insert failure leaves no trace in the loop's log (the log holds only
the success entry for the second badge) — so the failure is not logged,
although evaluation did continue past it and the caller sees exactly
the successful unlock. -/
theorem unlock_failure_not_logged :
    runUnlockLoop freshProgress 0 [] onlySecondInsertOk
        [firstLoopBadge, secondLoopBadge]
      = (["second-badge"], ["Second Badge"]) := rfl

/-- On a list pairwise-ordered by `r`, the first element satisfying `q`
is related by `r` to every other element satisfying `q`. -/
theorem find?_first_dominates {α : Type} {r : α → α → Prop} {q : α → Bool} :
    ∀ (l : List α), l.Pairwise r → ∀ b, l.find? q = some b →
      ∀ x ∈ l, q x = true → x = b ∨ r b x := by
  intro l
  induction l with
  | nil =>
      intro _ b hfind
      simp at hfind
  | cons a t ih =>
      intro hp b hfind x hx hqx
      rcases List.pairwise_cons.mp hp with ⟨ha, ht⟩
      by_cases hqa : q a = true
      · rw [List.find?_cons_of_pos _ hqa] at hfind
        obtain rfl : a = b := by injection hfind
        rcases List.mem_cons.mp hx with rfl | hxt
        · exact Or.inl rfl
        · exact Or.inr (ha x hxt)
      · rw [List.find?_cons_of_neg _ (by simpa using hqa)] at hfind
        rcases List.mem_cons.mp hx with rfl | hxt
        · exact absurd hqx hqa
        · exact ih ht b hfind x hxt hqx

/-- C6: the recomputed `currentIdentityBadge` is `none` exactly when no
identity-layer progression badge of the catalog lies in the union of the
pre-existing unlock set and the badges newly unlocked this call; and
when it is some slug `s`, that slug belongs to an identity-layer
progression badge in the union whose `progression_order || 0` key is
maximal among all identity progression badges in the union — the
highest-tier-wins rule. -/
theorem currentIdentityBadge_highest (badges : List Badge)
    (unlockedIds newUnlocks : List String) :
    (computeCurrentIdentityBadge badges unlockedIds newUnlocks = none ↔
      ∀ b ∈ badges, isIdentityProgression b = true →
        inUnlockUnion unlockedIds newUnlocks b = false) ∧
    (∀ s, computeCurrentIdentityBadge badges unlockedIds newUnlocks = some s →
      ∃ b ∈ badges, isIdentityProgression b = true ∧
        inUnlockUnion unlockedIds newUnlocks b = true ∧ b.slug = s ∧
        ∀ b' ∈ badges, isIdentityProgression b' = true →
          inUnlockUnion unlockedIds newUnlocks b' = true →
            orderKey b' ≤ orderKey b) := by
  have hmem : ∀ x : Badge, x ∈ identityCandidates badges ↔
      x ∈ badges ∧ isIdentityProgression x = true := by
    intro x
    rw [identityCandidates, List.mem_insertionSort, List.mem_filter]
  have hsorted : (identityCandidates badges).Pairwise badgeGE :=
    List.sorted_insertionSort badgeGE _
  constructor
  · rw [computeCurrentIdentityBadge, Option.map_eq_none', List.find?_eq_none]
    constructor
    · intro hnone b hb hip
      have := hnone b ((hmem b).mpr ⟨hb, hip⟩)
      simpa using this
    · intro hall x hx
      have hx' := (hmem x).mp hx
      simp [hall x hx'.1 hx'.2]
  · intro s hs
    rw [computeCurrentIdentityBadge, Option.map_eq_some'] at hs
    obtain ⟨b, hfind, hslug⟩ := hs
    have hq : inUnlockUnion unlockedIds newUnlocks b = true :=
      List.find?_some hfind
    have hbmem := (hmem b).mp (List.mem_of_find?_eq_some hfind)
    refine ⟨b, hbmem.1, hbmem.2, hq, hslug, ?_⟩
    intro b' hb' hip' hu'
    have hb'c : b' ∈ identityCandidates badges := (hmem b').mpr ⟨hb', hip'⟩
    rcases find?_first_dominates (identityCandidates badges) hsorted b hfind
        b' hb'c hu' with h | h
    · exact le_of_eq (congrArg orderKey h)
    · exact h

/-- Witness for C6 at a concrete catalog: with tier 1 unlocked
pre-existing and tier 3 newly unlocked, the recomputation picks the
tier-3 slug, which dominates every unlocked identity tier. -/
theorem currentIdentityBadge_highest_witness :
    ∃ b ∈ demoCatalog, isIdentityProgression b = true ∧
      inUnlockUnion ["badge-t1-id"] ["veteran"] b = true ∧ b.slug = "veteran" ∧
      ∀ b' ∈ demoCatalog, isIdentityProgression b' = true →
        inUnlockUnion ["badge-t1-id"] ["veteran"] b' = true →
          orderKey b' ≤ orderKey b :=
  (currentIdentityBadge_highest demoCatalog ["badge-t1-id"] ["veteran"]).2
    "veteran" rfl
